import Mathlib

/-!
# Verification of the telegram_cursos_bot course-catalog bot

Shallow embedding of `web_bot.py` (the unified core of the repository; `bot.py`
is an earlier variant of the same program).  Python dictionaries parsed from
JSON are modelled as association lists with distinct keys, Python values as the
`JsonVal` inductive, the state of the backing course file as `FileState`, and
each handler as a pure function from its inputs to the outbound payload it
produces.  Code that can raise is modelled in `Except`, mirroring exactly the
`try`/`except` structure of the source.
-/

namespace CursosBot

/-- A JSON-decoded Python value (`json.load` output): `None`, booleans,
numbers, strings, lists and dicts.  JSON numbers are modelled as integers;
no course field in any claim carries a float. -/
inductive JsonVal where
  | null
  | bool (b : Bool)
  | num (n : Int)
  | str (s : String)
  | arr (xs : List JsonVal)
  | obj (fields : List (String × JsonVal))

/-- Python truthiness (`if x:`) of a JSON-decoded value. -/
def truthy : JsonVal → Bool
  | .null => false
  | .bool b => b
  | .num n => !(n == 0)
  | .str s => !(s == "")
  | .arr xs => !xs.isEmpty
  | .obj fs => !fs.isEmpty

mutual

/-- Python `str()` of a JSON-decoded value.  Scalars follow CPython exactly
(`None`, `True`, `False`, decimal integers, the string itself).  Containers
are rendered structurally; CPython additionally quotes strings inside
containers (`repr`), which no code path of the bot reaches, since only
scalar course fields are ever stringified. -/
def pyStr : JsonVal → String
  | .null => "None"
  | .bool b => if b then "True" else "False"
  | .num n => toString n
  | .str s => s
  | .arr xs => "[" ++ String.intercalate ", " (pyStrList xs) ++ "]"
  | .obj fs => "\x7b" ++ String.intercalate ", " (pyStrFields fs) ++ "\x7d"

/-- Renders the elements of a JSON array for `pyStr`. -/
def pyStrList : List JsonVal → List String
  | [] => []
  | x :: r => pyStr x :: pyStrList r

/-- Renders the fields of a JSON object for `pyStr`. -/
def pyStrFields : List (String × JsonVal) → List String
  | [] => []
  | (k, v) :: r => (k ++ ": " ++ pyStr v) :: pyStrFields r

end

/-- `d.get(k)` on a Python dict: the value at key `k`, if present.
Dict keys are unique, so first-match lookup is the dict lookup. -/
def dictGet (fields : List (String × JsonVal)) (k : String) : Option JsonVal :=
  (fields.find? (fun p => p.1 == k)).map (fun p => p.2)

/-- A course record: a JSON object, i.e. a Python dict. -/
abbrev Course := List (String × JsonVal)

/-- Embeds a course dict back into `JsonVal`, as stored in the `cursos` array. -/
def objCourses (S : List Course) : List JsonVal := S.map JsonVal.obj

/-- The observable states of the backing course file (`COURSES_FILE`):
absent on disk, present but unreadable (`open` raises), present but not
valid JSON (`json.load` raises), or readable with a decoded JSON value. -/
inductive FileState where
  | absent
  | unreadable
  | malformed
  | content (data : JsonVal)

/-- Python exception classes distinguished by `load_courses`. -/
inductive LoadErr where
  | ioError
  | jsonError
  | attrError

/-- The body of the `try:` block of `load_courses` in `web_bot.py`:
the explicit existence check returns `[]` (no exception), `open` and
`json.load` raise on an unreadable or malformed file, `data.get` raises
`AttributeError` when the top-level JSON value is not a dict, and the
`isinstance` check returns `[]` when the `cursos` field is not a list. -/
def load_courses_try (fs : FileState) : Except LoadErr (List JsonVal) :=
  match fs with
  | .absent => .ok []
  | .unreadable => .error .ioError
  | .malformed => .error .jsonError
  | .content (.obj fields) =>
      match (dictGet fields "cursos").getD (.arr []) with
      | .arr xs => .ok xs
      | _ => .ok []
  | .content _ => .error .attrError

/-- `load_courses()` of `web_bot.py`: the `try:` body wrapped in the
`except Exception: return []` handler.  Total by construction — the
caller can never observe an exception. -/
def load_courses (fs : FileState) : List JsonVal :=
  match load_courses_try fs with
  | .ok xs => xs
  | .error _ => []

/-- What an `InlineKeyboardButton` carries besides its label: either a
`callback_data` token routed back into `on_button`, or an external `url`
(passed through as the raw value the code read from the course dict). -/
inductive BtnAction where
  | callback (data : String)
  | url (link : JsonVal)

/-- An `InlineKeyboardButton`: a label and its action. -/
structure Button where
  label : String
  action : BtnAction

/-- The `🔄 Reintentar` retry button of the empty-catalog keyboard
(`callback_data="RELOAD"`, the ShowList token). -/
def retryButton : Button := ⟨"🔄 Reintentar", .callback "RELOAD"⟩

/-- The `⬅️ Volver` back button (`callback_data="RELOAD"`). -/
def backButton : Button := ⟨"⬅️ Volver", .callback "RELOAD"⟩

/-- The id string the loop body of `build_keyboard` computes:
`str(c.get("id", "") or "")` — the `or ""` collapses any falsy id to the
empty string before `str()` is applied. -/
def courseCid (fields : List (String × JsonVal)) : String :=
  let idv := (dictGet fields "id").getD (.str "")
  if truthy idv then pyStr idv else ""

/-- The callback token of a course button: `("CUR|" + cid)[:64]`.
Python slices strings by code point, so the model takes the first 64
characters.  `String.mk`/`.data` is used so that list lemmas apply. -/
def courseToken (fields : List (String × JsonVal)) : String :=
  String.mk (("CUR|" ++ courseCid fields).data.take 64)

/-- One iteration of the `for c in cursos:` loop of `build_keyboard`.
`c.get(...)` raises `AttributeError` when the array element is not a dict;
the f-string `f"📘 {title}"` applies `str()` to the title. -/
def courseButtonJ (c : JsonVal) : Except Unit Button :=
  match c with
  | .obj fields =>
      .ok ⟨"📘 " ++ pyStr ((dictGet fields "titulo").getD (.str "Curso")),
           .callback (courseToken fields)⟩
  | _ => .error ()

/-- The `rows` accumulation of `build_keyboard`: one single-button row per
course, in catalog order, failing like the Python loop does on a non-dict
element. -/
def keyboardRows : List JsonVal → Except Unit (List (List Button))
  | [] => .ok []
  | c :: rest => do
      let b ← courseButtonJ c
      let rs ← keyboardRows rest
      .ok ([b] :: rs)

/-- `build_keyboard(cursos)` of `web_bot.py`: the retry keyboard for an
empty catalog (`if not cursos:`), otherwise one row per course. -/
def build_keyboard (cursos : List JsonVal) : Except Unit (List (List Button)) :=
  if cursos.isEmpty then .ok [[retryButton]] else keyboardRows cursos

/-- `"\n".join(parts)`: Python's `str.join` raises `TypeError` on a
non-string element, so the model first demands every part be a string. -/
def asStrings : List JsonVal → Option (List String)
  | [] => some []
  | .str s :: r => (asStrings r).map (fun ss => s :: ss)
  | _ :: _ => none

/-- `"\n".join` on the recovered string parts. -/
def joinNL : List String → String
  | [] => ""
  | [s] => s
  | s :: rest => s ++ "\n" ++ joinNL rest

/-- Python `str.strip()`: whitespace removed from both ends.  (CPython
also strips some further Unicode space characters; the course texts in
scope contain none.) -/
def pyStrip (s : String) : String :=
  String.mk (List.rdropWhile Char.isWhitespace
    (s.data.dropWhile Char.isWhitespace))

/-- `fmt_course(c)` of `web_bot.py`: the bold title line, then each of the
three optional lines exactly when its field is truthy, joined by newlines
and stripped.  The raw `parts.append(desc)` appends the field value itself,
so a truthy non-string `descripcion_corta` makes the join raise. -/
def fmt_course (c : Course) : Except Unit String :=
  let titulo := (dictGet c "titulo").getD (.str "Curso")
  let desc := (dictGet c "descripcion_corta").getD (.str "")
  let dur := (dictGet c "duracion").getD (.str "")
  let precio := (dictGet c "precio").getD (.str "")
  let parts : List JsonVal :=
    [.str ("*" ++ pyStr titulo ++ "*")]
      ++ (if truthy desc then [desc] else [])
      ++ (if truthy dur then [.str ("Duración: " ++ pyStr dur)] else [])
      ++ (if truthy precio then [.str ("Precio: " ++ pyStr precio)] else [])
  match asStrings parts with
  | some ss => .ok (pyStrip (joinNL ss))
  | none => .error ()

/-- The detail-view keyboard built in the `CUR|` branch of `on_button`:
`link = c.get("link_inscripcion")` (default `None`), the enrollment row
only `if link:`, then always the back row. -/
def detail_buttons (c : Course) : List (List Button) :=
  let link := (dictGet c "link_inscripcion").getD .null
  (if truthy link then [[⟨"📝 Inscribirme", .url link⟩]] else []) ++ [[backButton]]

/-- The id of a course as compared in `on_button`'s lookup:
`str(x.get("id", ""))` (no `or ""` here, unlike `build_keyboard`). -/
def courseId (c : Course) : String := pyStr ((dictGet c "id").getD (.str ""))

/-- `next((x for x in cursos if str(x.get("id","")) == course_id), None)`:
first match by string equality in snapshot order; a non-dict element hit
before any match makes `x.get` raise. -/
def findCourse : List JsonVal → String → Except Unit (Option Course)
  | [], _ => .ok none
  | x :: rest, cid =>
      match x with
      | .obj fields =>
          if courseId fields = cid then .ok (some fields) else findCourse rest cid
      | _ => .error ()

/-- `data.startswith(pre)`, via the character lists. -/
def pyStartsWith (d pre : String) : Bool := pre.data.isPrefixOf d.data

/-- Body of the list message: `"📚 *Cursos disponibles:*" if cursos else …`. -/
def availText : String := "📚 *Cursos disponibles:*"

/-- Body of the empty-catalog message. -/
def emptyText : String := "⚠️ No hay cursos válidos. Revisá courses.json y probá Reintentar."

/-- The fixed not-found body of `on_button`. -/
def notFoundText : String := "No encontré ese curso. Probá /cursos."

/-- `on_button(update, ctx)` of `web_bot.py`, as the payload it passes to
`safe_edit` (body text and keyboard), or `none` when the callback data
matches neither branch and the handler falls through.  `qdata` is
`q.data` (`None` when absent, collapsed by `data = q.data or ""`); `fs`
is the course-file state seen by the fresh `load_courses()` call.  In the
`CUR|` branch `data.split("|", 1)[1]` is the text after the first `"|"`,
which under the `startswith("CUR|")` guard is exactly `data[4:]`. -/
def on_button (qdata : Option String) (fs : FileState) :
    Except Unit (Option (String × List (List Button))) :=
  let d := qdata.getD ""
  if d = "RELOAD" then do
    let cursos := load_courses fs
    let kb ← build_keyboard cursos
    .ok (some ((if cursos.isEmpty then emptyText else availText), kb))
  else if pyStartsWith d "CUR|" then do
    let course_id := String.mk (d.data.drop 4)
    let cursos := load_courses fs
    let copt ← findCourse cursos course_id
    match copt with
    | none => .ok (some (notFoundText, [[backButton]]))
    | some c => do
        let txt ← fmt_course c
        .ok (some (txt, detail_buttons c))
  else .ok none

/-- Substring membership, Python's `needle in hay` on strings. -/
def listContains (needle : List Char) : List Char → Bool
  | [] => needle.isEmpty
  | c :: rest => needle.isPrefixOf (c :: rest) || listContains needle rest

/-- `needle in hay` for strings. -/
def strContains (hay needle : String) : Bool := listContains needle.data hay.data

/-- The outcome of one outbound edit call against the transport: success,
or a `telegram.error.BadRequest` carrying its message.  (`BadRequest` is
the only exception class `safe_edit` branches on.) -/
inductive EditOutcome where
  | success
  | badRequest (msg : String)

/-- What `safe_edit` did, as observed by its caller. -/
inductive SafeEditResult where
  | edited
  | fallbackEdited
  | fallbackSwallowed
  | raised (msg : String)

/-- `safe_edit(q, text, markup)` of `web_bot.py`, as a function of the
transport's responses: `full` is the outcome of `edit_message_text`,
`markupOnly` the outcome of the fallback `edit_message_reply_markup`
(consulted only when the full edit is rejected as unmodified). -/
def safe_edit (full markupOnly : EditOutcome) : SafeEditResult :=
  match full with
  | .success => .edited
  | .badRequest m =>
      if strContains m "Message is not modified" then
        match markupOnly with
        | .success => .fallbackEdited
        | .badRequest _ => .fallbackSwallowed
      else .raised m

/-- The `health` closure of `run_http`: `count` is `len(load_courses())`
when the course file exists on disk, else `0`; the `web.Response` carries
aiohttp's default status 200 and the f-string body. -/
def health (fs : FileState) : Nat × String :=
  let count :=
    match fs with
    | .absent => 0
    | _ => (load_courses fs).length
  (200, "ok | courses=" ++ toString count)

/-- The routing table of `run_http`: `add_get("/", health)` and
`add_get("/health", health)`. -/
def http_get (path : String) (fs : FileState) : Option (Nat × String) :=
  if path = "/" ∨ path = "/health" then some (health fs) else none

/-- The token guard at the top of `run_bot`:
`token = os.environ.get("TELEGRAM_BOT_TOKEN"); if not token: raise
RuntimeError(...)`.  `not token` is true for an absent variable (`None`)
and for the empty string. -/
def run_bot_guard (token : Option String) : Except String Unit :=
  if (token.getD "") = "" then .error "Falta TELEGRAM_BOT_TOKEN" else .ok ()

/-- `main()` = `asyncio.gather(run_bot(), run_http())` under `asyncio.run`:
`run_bot` raises at its very first step when the guard fails (before any
`await`), `gather` propagates that exception, and `asyncio.run` cancels
every still-pending task while unwinding.  The model records the
supervisor's outcome. -/
def main_outcome (token : Option String) : Except String Unit :=
  match run_bot_guard token with
  | .error m => .error m
  | .ok _ => .ok ()

/-- The receive loop (`start_polling`) is reached only after the guard
passes: `run_bot` raises before it otherwise. -/
def receive_loop_runs (token : Option String) : Bool :=
  match run_bot_guard token with
  | .ok _ => true
  | .error _ => false

/-- The HTTP listener reaches its steady serving state only if the
supervisor has not propagated a fatal startup error: when `gather` raises,
`asyncio.run` cancels the pending `run_http` task during unwinding. -/
def http_listener_serves (token : Option String) : Bool :=
  (main_outcome token).isOk

/-- The process exit status: an exception escaping `asyncio.run` is
uncaught in `__main__`, and CPython exits with status 1. -/
def exit_code (token : Option String) : Nat :=
  match main_outcome token with
  | .ok _ => 0
  | .error _ => 1

/-- An outbound message as produced by the command handlers: body text,
keyboard, and whether it was sent via `update.message.reply_text` (the
`update.message` branch) or `ctx.bot.send_message`. -/
structure OutMsg where
  text : String
  markup : List (List Button)
  viaReply : Bool

/-- `start_cmd(update, ctx)` of `web_bot.py`: fresh load, keyboard, the
catalog body when courses exist and the warning body otherwise, delivered
as a reply when `update.message` is present. -/
def start_cmd (hasMessage : Bool) (fs : FileState) : Except Unit OutMsg := do
  let cursos := load_courses fs
  let kb ← build_keyboard cursos
  let msg := if cursos.isEmpty then emptyText else availText
  .ok ⟨msg, kb, hasMessage⟩

/-- `cursos_cmd(update, ctx)` of `web_bot.py`: `await start_cmd(update, ctx)`. -/
def cursos_cmd (hasMessage : Bool) (fs : FileState) : Except Unit OutMsg :=
  start_cmd hasMessage fs

/-- The file state whose fresh load yields exactly the snapshot `S` of
course dicts: a readable file holding `{"cursos": [...]}`. -/
def catalogFile (S : List Course) : FileState :=
  .content (.obj [("cursos", .arr (objCourses S))])

/-- The button the `build_keyboard` loop emits for a course dict. -/
def courseRow (c : Course) : Button :=
  ⟨"📘 " ++ pyStr ((dictGet c "titulo").getD (.str "Curso")),
   .callback (courseToken c)⟩

lemma courseButtonJ_obj (c : Course) : courseButtonJ (.obj c) = .ok (courseRow c) := rfl

lemma objCourses_cons (c : Course) (S : List Course) :
    objCourses (c :: S) = .obj c :: objCourses S := rfl

lemma keyboardRows_objCourses (S : List Course) :
    keyboardRows (objCourses S) = .ok (S.map (fun c => [courseRow c])) := by
  induction S with
  | nil => rfl
  | cons c rest ih =>
      simp only [objCourses, List.map] at ih ⊢
      simp only [keyboardRows, courseButtonJ_obj, ih]
      rfl

lemma build_keyboard_cons (x : JsonVal) (l : List JsonVal) :
    build_keyboard (x :: l) = keyboardRows (x :: l) := rfl

lemma build_keyboard_objCourses (S : List Course) (h : S ≠ []) :
    build_keyboard (objCourses S) = .ok (S.map (fun c => [courseRow c])) := by
  cases S with
  | nil => exact absurd rfl h
  | cons c rest =>
      rw [objCourses_cons, build_keyboard_cons, ← objCourses_cons]
      exact keyboardRows_objCourses (c :: rest)

/-- **C1.**  `load_courses` never raises to its caller: it is total, it
returns `[]` whenever the body of its `try:` block raises (unreadable
file, malformed JSON, non-dict top level) as well as for an absent file
and for a `cursos` field that is not a list, and for a well-formed file it
returns the `cursos` array itself, in order. -/
theorem C1_load_courses_never_raises :
    (∀ fs : FileState, (load_courses_try fs).isOk = false → load_courses fs = []) ∧
    load_courses .absent = [] ∧
    load_courses .unreadable = [] ∧
    load_courses .malformed = [] ∧
    (∀ v : JsonVal, (∀ fields, v ≠ .obj fields) → load_courses (.content v) = []) ∧
    (∀ fields, dictGet fields "cursos" = none →
      load_courses (.content (.obj fields)) = []) ∧
    (∀ fields v, dictGet fields "cursos" = some v → (∀ xs, v ≠ .arr xs) →
      load_courses (.content (.obj fields)) = []) ∧
    (∀ fields xs, dictGet fields "cursos" = some (.arr xs) →
      load_courses (.content (.obj fields)) = xs) := by
  refine ⟨?_, rfl, rfl, rfl, ?_, ?_, ?_, ?_⟩
  · intro fs h
    rw [load_courses]
    cases he : load_courses_try fs with
    | ok xs => rw [he] at h; exact absurd h (by simp [Except.isOk, Except.toBool])
    | error e => rfl
  · intro v hv
    cases v with
    | obj fields => exact absurd rfl (hv fields)
    | null => rfl
    | bool b => rfl
    | num n => rfl
    | str s => rfl
    | arr xs => rfl
  · intro fields h
    simp [load_courses, load_courses_try, h]
  · intro fields v h hv
    cases v with
    | arr xs => exact absurd rfl (hv xs)
    | null => simp [load_courses, load_courses_try, h]
    | bool b => simp [load_courses, load_courses_try, h]
    | num n => simp [load_courses, load_courses_try, h]
    | str s => simp [load_courses, load_courses_try, h]
    | obj fs2 => simp [load_courses, load_courses_try, h]
  · intro fields xs h
    simp [load_courses, load_courses_try, h]

/-- Witness for C1: a well-formed file yields its `cursos` array. -/
theorem C1_load_courses_never_raises_witness :
    load_courses (.content (.obj [("cursos", .arr [.num 1, .str "a"])])) =
      [.num 1, .str "a"] :=
  C1_load_courses_never_raises.2.2.2.2.2.2.2 _ _ rfl

/-- **C2, counterexample.**  The claim says the button label falls back to
the literal "Curso" when the title is missing *or empty*; the code
(`c.get("titulo", "Curso")`) falls back only when the key is missing.  A
course with `titulo = ""` gets the label `"📘 "` (the marker followed by
the empty title), not the fallback label `"📘 Curso"`. -/
theorem C2_empty_title_no_fallback :
    build_keyboard [.obj [("titulo", .str ""), ("id", .str "x")]] =
      .ok [[⟨"📘 ", .callback "CUR|x"⟩]] ∧
    ("📘 " : String) ≠ ("📘 Curso" : String) :=
  ⟨rfl, by decide⟩

/-- **C2 (amended).**  For every catalog snapshot `S` of course dicts,
`build_keyboard` produces exactly one retry button (callback token
`RELOAD`, the ShowList action) when `S` is empty, and exactly one button
per course of `S`, in `S`'s order, when `S` is non-empty; each course
button's label is the course title prefixed with the `📘` marker, with
the literal "Curso" substituted only when the `titulo` field is missing
(an empty title is rendered as the empty string). -/
theorem C2_build_keyboard_rows (S : List Course) :
    (S = [] → build_keyboard (objCourses S) = .ok [[retryButton]]) ∧
    (S ≠ [] → build_keyboard (objCourses S) = .ok (S.map (fun c => [courseRow c]))) ∧
    (∀ c : Course, dictGet c "titulo" = none → (courseRow c).label = "📘 Curso") ∧
    (∀ (c : Course) (t : String), dictGet c "titulo" = some (.str t) →
      (courseRow c).label = "📘 " ++ t) := by
  refine ⟨?_, build_keyboard_objCourses S, ?_, ?_⟩
  · intro h; subst h; rfl
  · intro c h; simp [courseRow, h, pyStr]
  · intro c t h; simp [courseRow, h, pyStr]

/-- Witness for C2 (amended): a two-course snapshot, one course with a
title and one without, yields two buttons in order with the documented
labels; the empty snapshot yields the retry keyboard. -/
theorem C2_build_keyboard_rows_witness :
    build_keyboard (objCourses [[("titulo", .str "Intro"), ("id", .str "c1")],
                                [("id", .str "c2")]]) =
      .ok [[⟨"📘 Intro", .callback "CUR|c1"⟩], [⟨"📘 Curso", .callback "CUR|c2"⟩]] ∧
    build_keyboard (objCourses []) = .ok [[retryButton]] :=
  ⟨by rw [(C2_build_keyboard_rows _).2.1 (List.cons_ne_nil _ _)]; rfl,
   (C2_build_keyboard_rows []).1 rfl⟩

lemma findCourse_objCourses (S : List Course) (cid : String) :
    findCourse (objCourses S) cid = .ok (S.find? (fun x => courseId x == cid)) := by
  induction S with
  | nil => rfl
  | cons c rest ih =>
      rw [objCourses_cons]
      by_cases h : courseId c = cid
      · simp [findCourse, List.find?, h]
      · have hb : (courseId c == cid) = false := beq_eq_false_iff_ne.mpr h
        simp [findCourse, List.find?, h, hb, ih]

lemma findCourse_first (post : List Course) (c : Course) (cid : String)
    (hc : courseId c = cid) :
    ∀ pre : List Course, (∀ x ∈ pre, courseId x ≠ cid) →
      findCourse (objCourses (pre ++ c :: post)) cid = .ok (some c) := by
  intro pre
  induction pre with
  | nil =>
      intro _
      simp only [List.nil_append, objCourses_cons, findCourse]
      rw [if_pos hc]
  | cons x pre' ih =>
      intro hpre
      have hx : courseId x ≠ cid := hpre x (by simp)
      have hrest := ih (fun z hz => hpre z (by simp [hz]))
      simp only [List.cons_append, objCourses_cons, findCourse]
      rw [if_neg hx]
      exact hrest

lemma cur_append_data (cid : String) :
    ("CUR|" ++ cid).data = 'C' :: 'U' :: 'R' :: '|' :: cid.data := by
  rw [String.data_append]
  rfl

lemma cur_ne_reload (cid : String) : ("CUR|" ++ cid) ≠ "RELOAD" := by
  intro h
  have h2 : ("CUR|" ++ cid).data = "RELOAD".data := by rw [h]
  rw [cur_append_data] at h2
  rw [show "RELOAD".data = ['R', 'E', 'L', 'O', 'A', 'D'] from rfl] at h2
  injection h2 with h3 _
  exact absurd h3 (by decide)

lemma startsWith_cur (cid : String) : pyStartsWith ("CUR|" ++ cid) "CUR|" = true := by
  rw [pyStartsWith, cur_append_data]
  show List.isPrefixOf ['C', 'U', 'R', '|'] _ = true
  simp [List.isPrefixOf]

lemma drop4_cur (cid : String) : String.mk (("CUR|" ++ cid).data.drop 4) = cid := by
  rw [cur_append_data]
  rw [show List.drop 4 ('C' :: 'U' :: 'R' :: '|' :: cid.data) = cid.data from rfl]

lemma load_catalogFile (S : List Course) :
    load_courses (catalogFile S) = objCourses S := rfl

lemma on_button_cur_miss (y : String) (S : List Course)
    (h : S.find? (fun x => courseId x == y) = none) :
    on_button (some ("CUR|" ++ y)) (catalogFile S) =
      .ok (some (notFoundText, [[backButton]])) := by
  simp only [on_button, Option.getD_some]
  rw [if_neg (cur_ne_reload y), if_pos (startsWith_cur y)]
  rw [drop4_cur, load_catalogFile, findCourse_objCourses, h]
  rfl

/-- **C3.**  The `ShowCourse` lookup of `on_button` is first-match by
string equality on the id over the loaded snapshot: it equals
`List.find?` (first match, snapshot order), the first of any two courses
sharing an id is the one selected, and when no course matches the handler
renders the not-found view (fixed body plus a single back action) instead
of raising or falling through. -/
theorem C3_lookup_first_match (S : List Course) (cid : String) :
    findCourse (objCourses S) cid = .ok (S.find? (fun x => courseId x == cid)) ∧
    (∀ (pre post : List Course) (c : Course),
      courseId c = cid → (∀ x ∈ pre, courseId x ≠ cid) →
      findCourse (objCourses (pre ++ c :: post)) cid = .ok (some c)) ∧
    (S.find? (fun x => courseId x == cid) = none →
      on_button (some ("CUR|" ++ cid)) (catalogFile S) =
        .ok (some (notFoundText, [[backButton]]))) :=
  ⟨findCourse_objCourses S cid,
   fun pre post c hc hpre => findCourse_first post c cid hc pre hpre,
   on_button_cur_miss cid S⟩

/-- Witness for C3: of two courses sharing id `"a"` the first is found,
and pressing a button whose id matches nothing renders the not-found
view. -/
theorem C3_lookup_first_match_witness :
    findCourse (objCourses [[("id", .str "a"), ("titulo", .str "first")],
                            [("id", .str "a"), ("titulo", .str "second")]]) "a" =
      .ok (some [("id", .str "a"), ("titulo", .str "first")]) ∧
    on_button (some ("CUR|" ++ "zz")) (catalogFile [[("id", .str "a")]]) =
      .ok (some (notFoundText, [[backButton]])) :=
  ⟨(C3_lookup_first_match [] "a").2.1 []
      [[("id", .str "a"), ("titulo", .str "second")]]
      [("id", .str "a"), ("titulo", .str "first")] rfl (by simp),
   (C3_lookup_first_match [[("id", .str "a")]] "zz").2.2 rfl⟩

lemma courseToken_data (c : Course) :
    (courseToken c).data = 'C' :: 'U' :: 'R' :: '|' :: (courseCid c).data.take 60 := by
  show ("CUR|" ++ courseCid c).data.take 64 = _
  rw [cur_append_data]
  rw [show (64 : Nat) = 63 + 1 from rfl, List.take_succ_cons,
      show (63 : Nat) = 62 + 1 from rfl, List.take_succ_cons,
      show (62 : Nat) = 61 + 1 from rfl, List.take_succ_cons,
      show (61 : Nat) = 60 + 1 from rfl, List.take_succ_cons]

lemma courseToken_eq (c : Course) :
    courseToken c = "CUR|" ++ String.mk ((courseCid c).data.take 60) := by
  apply String.ext
  rw [courseToken_data, cur_append_data]

/-- **C4.**  Every course's outbound callback token is at most 64
characters, it is a prefix of the untruncated token (an over-long id is
truncated, never rejected), and a press whose extracted id matches no
course in the snapshot makes `on_button` terminate normally with the
not-found view. -/
theorem C4_token_truncation (c : Course) (S : List Course) :
    (courseToken c).length ≤ 64 ∧
    (courseToken c).data <+: ("CUR|" ++ courseCid c).data ∧
    (S.find? (fun x => courseId x == String.mk ((courseToken c).data.drop 4)) = none →
      on_button (some (courseToken c)) (catalogFile S) =
        .ok (some (notFoundText, [[backButton]]))) := by
  refine ⟨?_, ?_, ?_⟩
  · show (("CUR|" ++ courseCid c).data.take 64).length ≤ 64
    rw [List.length_take]
    omega
  · show ("CUR|" ++ courseCid c).data.take 64 <+: ("CUR|" ++ courseCid c).data
    exact List.take_prefix 64 _
  · intro h
    have hy : String.mk ((courseToken c).data.drop 4) =
        String.mk ((courseCid c).data.take 60) := by
      rw [courseToken_data]
      rfl
    rw [hy] at h
    rw [courseToken_eq]
    exact on_button_cur_miss _ S h

/-- Witness for C4: a 65-character id is truncated to a 60-character
token payload, which matches nothing, and the press renders the
not-found view. -/
theorem C4_token_truncation_witness :
    (courseToken [("id", .str "aaaaaaaaaaaaaaaaaaaaaaaaaaaaaaaaaaaaaaaaaaaaaaaaaaaaaaaaaaaaaaaaa")]).length ≤ 64 ∧
    on_button
      (some (courseToken [("id", .str "aaaaaaaaaaaaaaaaaaaaaaaaaaaaaaaaaaaaaaaaaaaaaaaaaaaaaaaaaaaaaaaaa")]))
      (catalogFile [[("id", .str "aaaaaaaaaaaaaaaaaaaaaaaaaaaaaaaaaaaaaaaaaaaaaaaaaaaaaaaaaaaaaaaaa")]]) =
      .ok (some (notFoundText, [[backButton]])) :=
  ⟨(C4_token_truncation _ []).1, (C4_token_truncation _ _).2.2 rfl⟩

lemma dropWhile_not_ws_head (l : List Char) :
    List.dropWhile Char.isWhitespace ('*' :: l) = '*' :: l := by
  rw [List.dropWhile_cons]
  simp

lemma rdrop_append_prefix (u v : List Char)
    (h : List.rdropWhile Char.isWhitespace u = u) :
    u <+: List.rdropWhile Char.isWhitespace (u ++ v) := by
  induction v using List.reverseRecOn with
  | nil =>
      rw [List.append_nil, h]
  | append_singleton v' x ih =>
      rw [← List.append_assoc, List.rdropWhile_concat]
      by_cases hx : Char.isWhitespace x
      · rw [if_pos hx]; exact ih
      · rw [if_neg hx, List.append_assoc]
        exact List.prefix_append u (v' ++ [x])

lemma star_wrapped_rdrop (t : String) :
    List.rdropWhile Char.isWhitespace ("*" ++ t ++ "*").data =
      ("*" ++ t ++ "*").data := by
  have hdata : ("*" ++ t ++ "*").data = ('*' :: t.data) ++ ['*'] := by
    simp [String.data_append]
  rw [hdata]
  exact List.rdropWhile_concat_neg _ _ '*' (by decide)

lemma pyStrip_star_prefix (t rest : String) :
    ("*" ++ t ++ "*").data <+: (pyStrip ("*" ++ t ++ "*" ++ rest)).data := by
  have hdata : ("*" ++ t ++ "*" ++ rest).data =
      '*' :: (t.data ++ ['*'] ++ rest.data) := by
    simp [String.data_append]
  have hu : '*' :: (t.data ++ ['*'] ++ rest.data) =
      ("*" ++ t ++ "*").data ++ rest.data := by
    simp [String.data_append]
  rw [pyStrip, hdata, dropWhile_not_ws_head, hu]
  exact rdrop_append_prefix _ _ (star_wrapped_rdrop t)

/-- **C5.**  For a course whose (defaulted) fields are strings,
`fmt_course` is total (returns `.ok`, never an error), its body is the
bold title line followed by one line for each of description, duration
and price exactly when that field is non-empty, with the whole body
stripped of trailing whitespace (leading strip is vacuous: the body
starts with `*`); and the title line is always a prefix of every body it
returns.  Determinism is definitional: `fmt_course` is a pure function of
the course dict. -/
theorem C5_fmt_course_detail (c : Course) (t d du pr : String)
    (h1 : (dictGet c "titulo").getD (.str "Curso") = .str t)
    (h2 : (dictGet c "descripcion_corta").getD (.str "") = .str d)
    (h3 : (dictGet c "duracion").getD (.str "") = .str du)
    (h4 : (dictGet c "precio").getD (.str "") = .str pr) :
    fmt_course c =
      .ok (pyStrip ("*" ++ t ++ "*"
        ++ (if d = "" then "" else "\n" ++ d)
        ++ (if du = "" then "" else "\n" ++ "Duración: " ++ du)
        ++ (if pr = "" then "" else "\n" ++ "Precio: " ++ pr))) ∧
    (∀ b : String, fmt_course c = .ok b → ("*" ++ t ++ "*").data <+: b.data) := by
  have E : fmt_course c =
      .ok (pyStrip ("*" ++ t ++ "*"
        ++ (if d = "" then "" else "\n" ++ d)
        ++ (if du = "" then "" else "\n" ++ "Duración: " ++ du)
        ++ (if pr = "" then "" else "\n" ++ "Precio: " ++ pr))) := by
    simp only [fmt_course]
    rw [h1, h2, h3, h4]
    by_cases hd : d = "" <;> by_cases hdu : du = "" <;> by_cases hpr : pr = "" <;>
      simp [hd, hdu, hpr, truthy, pyStr, asStrings, joinNL] <;>
      (apply congrArg; apply String.ext; simp [String.data_append, List.append_assoc])
  refine ⟨E, ?_⟩
  intro b hb
  rw [E] at hb
  injection hb with hb2
  subst hb2
  have hassoc : "*" ++ t ++ "*"
      ++ (if d = "" then "" else "\n" ++ d)
      ++ (if du = "" then "" else "\n" ++ "Duración: " ++ du)
      ++ (if pr = "" then "" else "\n" ++ "Precio: " ++ pr) =
      "*" ++ t ++ "*"
      ++ ((if d = "" then "" else "\n" ++ d)
        ++ ((if du = "" then "" else "\n" ++ "Duración: " ++ du)
          ++ (if pr = "" then "" else "\n" ++ "Precio: " ++ pr))) := by
    rw [String.append_assoc, String.append_assoc]
  rw [hassoc]
  exact pyStrip_star_prefix t _

/-- Witness for C5: a course with a title, a description, no duration and
a price carrying trailing whitespace renders to the three expected lines
with the end stripped, and the title line prefixes the body. -/
theorem C5_fmt_course_detail_witness :
    fmt_course [("titulo", .str "T"), ("descripcion_corta", .str "D"),
                ("precio", .str "10 ")] = .ok "*T*\nD\nPrecio: 10" ∧
    ("*" ++ "T" ++ "*" : String).data <+: ("*T*\nD\nPrecio: 10" : String).data :=
  ⟨(C5_fmt_course_detail [("titulo", .str "T"), ("descripcion_corta", .str "D"),
      ("precio", .str "10 ")] "T" "D" "" "10 " rfl rfl rfl rfl).1.trans rfl,
   (C5_fmt_course_detail [("titulo", .str "T"), ("descripcion_corta", .str "D"),
      ("precio", .str "10 ")] "T" "D" "" "10 " rfl rfl rfl rfl).2
     "*T*\nD\nPrecio: 10" rfl⟩

/-- **C6.**  The detail-view action list is exactly
`[enrollment action, back action]` when the course has a truthy (present,
non-empty) `link_inscripcion`, and exactly `[back action]` when the field
is absent; the back action is always present and always last, and a
link-less course raises nothing (`c.get` defaults to `None`). -/
theorem C6_detail_actions (c : Course) :
    (∀ l : JsonVal, dictGet c "link_inscripcion" = some l → truthy l = true →
      detail_buttons c = [[⟨"📝 Inscribirme", .url l⟩], [backButton]]) ∧
    (dictGet c "link_inscripcion" = none → detail_buttons c = [[backButton]]) := by
  constructor
  · intro l h hl
    simp [detail_buttons, h, hl]
  · intro h
    simp [detail_buttons, h, truthy]

/-- Witness for C6: a course with an enrollment link gets the two-row
keyboard; one without the field gets only the back row. -/
theorem C6_detail_actions_witness :
    detail_buttons [("id", .str "c1"), ("link_inscripcion", .str "https://x/y")] =
      [[⟨"📝 Inscribirme", .url (.str "https://x/y")⟩], [backButton]] ∧
    detail_buttons [("id", .str "c2")] = [[backButton]] :=
  ⟨(C6_detail_actions _).1 (.str "https://x/y") rfl rfl,
   (C6_detail_actions _).2 rfl⟩

/-- **C7.**  A full edit rejected by the transport as a no-op (a
`BadRequest` whose message contains "Message is not modified") never
re-raises: `safe_edit` degrades to the markup-only update (and swallows
even a `BadRequest` from that fallback); any other `BadRequest` message
on the full edit is re-raised unchanged. -/
theorem C7_safe_edit_noop (m : String) (mo : EditOutcome) :
    (strContains m "Message is not modified" = true →
      (safe_edit (.badRequest m) mo = .fallbackEdited ∨
        safe_edit (.badRequest m) mo = .fallbackSwallowed) ∧
      (∀ r : String, safe_edit (.badRequest m) mo ≠ .raised r)) ∧
    (strContains m "Message is not modified" = false →
      safe_edit (.badRequest m) mo = .raised m) := by
  constructor
  · intro h
    cases mo with
    | success =>
        refine ⟨Or.inl ?_, fun r hr => ?_⟩ <;> simp [safe_edit, h] at *
    | badRequest m2 =>
        refine ⟨Or.inr ?_, fun r hr => ?_⟩ <;> simp [safe_edit, h] at *
  · intro h
    simp [safe_edit, h]

/-- Witness for C7: the literal Telegram no-op message degrades to the
markup-only edit; a different message is re-raised. -/
theorem C7_safe_edit_noop_witness :
    (safe_edit (.badRequest "Bad Request: Message is not modified") .success =
        .fallbackEdited ∨
      safe_edit (.badRequest "Bad Request: Message is not modified") .success =
        .fallbackSwallowed) ∧
    safe_edit (.badRequest "Bad Request: chat not found") .success =
      .raised "Bad Request: chat not found" :=
  ⟨((C7_safe_edit_noop "Bad Request: Message is not modified" .success).1 rfl).1,
   (C7_safe_edit_noop "Bad Request: chat not found" .success).2 rfl⟩

/-- **C8.**  Both `GET /` and `GET /health` respond, for every state of
the course file, with status 200 and body `"ok | courses=<N>"` where `N`
is the length of a fresh `load_courses()` for that request; an absent or
invalid catalog yields `N = 0` with the same success status, never a
failed probe. -/
theorem C8_health_endpoint (fs : FileState) :
    http_get "/" fs =
      some (200, "ok | courses=" ++ toString (load_courses fs).length) ∧
    http_get "/health" fs =
      some (200, "ok | courses=" ++ toString (load_courses fs).length) := by
  refine ⟨?_, ?_⟩ <;> cases fs <;> rfl

/-- **C9.**  With `TELEGRAM_BOT_TOKEN` absent or empty, the token guard
raises before anything else in `run_bot`: the receive loop never starts,
the HTTP task never reaches its serving state (the supervisor `gather`
propagates the failure and `asyncio.run` cancels pending tasks while
unwinding), and the process exits with status 1, which is non-zero. -/
theorem C9_missing_token_aborts (token : Option String)
    (h : token = none ∨ token = some "") :
    run_bot_guard token = .error "Falta TELEGRAM_BOT_TOKEN" ∧
    receive_loop_runs token = false ∧
    http_listener_serves token = false ∧
    exit_code token = 1 ∧ exit_code token ≠ 0 := by
  rcases h with h | h <;> subst h <;>
    exact ⟨rfl, rfl, rfl, rfl, by decide⟩

/-- Witness for C9: the absent-variable case. -/
theorem C9_missing_token_aborts_witness :
    run_bot_guard none = .error "Falta TELEGRAM_BOT_TOKEN" ∧
    receive_loop_runs none = false ∧
    http_listener_serves none = false ∧
    exit_code none = 1 ∧ exit_code none ≠ 0 :=
  C9_missing_token_aborts none (Or.inl rfl)

/-- **C10.**  The `cursos` command handler delegates to the `start`
command handler, so the two registered catalog commands are extensionally
equal: they produce the identical outbound payload on every update shape
and file state. -/
theorem C10_cursos_cmd_delegates (hasMessage : Bool) (fs : FileState) :
    cursos_cmd hasMessage fs = start_cmd hasMessage fs := rfl

end CursosBot
